import Mathlib

set_option linter.unusedVariables false

/-!
Verification development for the health-report analysis pipeline of the
Ai-health-analyzer server (src/server/src/services/aiAnalysisService.ts).

The JavaScript source is shallowly embedded: strings are lists of
characters, the regular expressions used by the service are written as an
explicit abstract syntax and executed by a backtracking matcher that
follows the semantics of JavaScript regular expressions on the constructs
those patterns use (greedy quantifiers over character classes, ordered
alternation, capture groups, anchors and word boundaries, leftmost match),
numbers produced by parseFloat are exact decimals, and the asynchronous
orchestration is a function of an explicit environment describing the
behaviour of the PDF extraction library and of the remote generation call.
-/

/- ## Character classes used by the patterns -/

/-- JavaScript whitespace class backslash-s restricted to the ASCII range. -/
def isWsCh (c : Char) : Bool :=
  c = ' ' || c = '\t' || c = '\n' || c = '\r' || c = '\x0b' || c = '\x0c'

/-- JavaScript digit class backslash-d. -/
def isDigitCh (c : Char) : Bool :=
  '0' ≤ c && c ≤ '9'

/-- ASCII letter class, lower or upper. -/
def isAlphaCh (c : Char) : Bool :=
  ('a' ≤ c && c ≤ 'z') || ('A' ≤ c && c ≤ 'Z')

/-- JavaScript word class backslash-w. -/
def isWordCh (c : Char) : Bool :=
  isAlphaCh c || isDigitCh c || c = '_'

/-- The dot of a JavaScript pattern without the dotAll flag: any character
except a line terminator. -/
def isDotCh (c : Char) : Bool :=
  c ≠ '\n' && c ≠ '\r'

/- ## JavaScript string helpers -/

/-- Decimal value of the digits of a list, most significant first. -/
def digitsToNat (l : List Char) : Nat :=
  l.foldl (fun acc c => acc * 10 + (c.toNat - '0'.toNat)) 0

/-- JavaScript String.prototype.trim on the whitespace the service meets. -/
def jsTrim (l : List Char) : List Char :=
  ((l.dropWhile isWsCh).reverse.dropWhile isWsCh).reverse

/-- JavaScript String.prototype.toLowerCase on ASCII data. -/
def jsLower (l : List Char) : List Char :=
  l.map Char.toLower

/-- JavaScript String.prototype.includes: substring containment. -/
def containsSub (hay needle : List Char) : Bool :=
  match hay with
  | [] => needle.isEmpty
  | _ :: t => needle.isPrefixOf hay || containsSub t needle

/-- JavaScript parseInt on a candidate string: optional sign then a digit
run; none when no digit is found (NaN). -/
def jsParseInt (l : List Char) : Option Int :=
  let l := l.dropWhile isWsCh
  let core (sgn : Int) (rest : List Char) : Option Int :=
    let ds := rest.takeWhile isDigitCh
    if ds.isEmpty then none else some (sgn * (digitsToNat ds : Int))
  match l with
  | '-' :: rest => core (-1) rest
  | '+' :: rest => core 1 rest
  | rest => core 1 rest

/-- An exact decimal `num / 10 ^ scale`.  The service only compares the
numbers parseFloat produces against small integer thresholds, where the
exact decimal value and the IEEE double agree. -/
structure DecVal where
  num : Nat
  scale : Nat
  deriving DecidableEq, Repr

/-- Is the decimal strictly greater than the natural threshold. -/
def DecVal.gtNat (d : DecVal) (n : Nat) : Bool := n * 10 ^ d.scale < d.num

/-- Is the decimal strictly smaller than the natural threshold. -/
def DecVal.ltNat (d : DecVal) (n : Nat) : Bool := d.num < n * 10 ^ d.scale

/-- JavaScript parseFloat restricted to the strings the service feeds it
(runs of digits and dots): digits, an optional dot, further digits; none
when no digit is found (NaN). -/
def jsParseFloat (l : List Char) : Option DecVal :=
  let d1 := l.takeWhile isDigitCh
  let r1 := l.drop d1.length
  let d2 := match r1 with
    | '.' :: t => t.takeWhile isDigitCh
    | _ => []
  if d1.isEmpty && d2.isEmpty then none
  else some ⟨digitsToNat (d1 ++ d2), d2.length⟩

/- ## Regular expression abstract syntax

Only the constructs appearing in the patterns of aiAnalysisService.ts are
represented.  Every starred or counted subexpression of those patterns is a
single character class, so quantifiers are restricted to classes; the
optional quantifier applies to arbitrary subexpressions. -/

inductive Rx where
  /-- empty pattern -/
  | eps : Rx
  /-- one character of a class -/
  | cls : (Char → Bool) → Rx
  /-- concatenation -/
  | seq : Rx → Rx → Rx
  /-- ordered alternation, left branch preferred -/
  | alt : Rx → Rx → Rx
  /-- greedy star over a character class -/
  | star : (Char → Bool) → Rx
  /-- greedy counted repetition of a character class, lower bound and
  optional upper bound -/
  | rep : (Char → Bool) → Nat → Option Nat → Rx
  /-- greedy option -/
  | quest : Rx → Rx
  /-- numbered capture group -/
  | grp : Nat → Rx → Rx
  /-- caret without the multiline flag: start of the string -/
  | bos : Rx
  /-- dollar without the multiline flag: end of the string -/
  | eos : Rx
  /-- caret with the multiline flag: start of the string or of a line -/
  | bolm : Rx
  /-- word boundary -/
  | wb : Rx

/-- One way a pattern can match at the current point: the consumed span,
the captures, the character preceding the remaining input, and the
remaining input. -/
structure MRes where
  m : List Char
  caps : List (Nat × List Char)
  pv : Option Char
  rest : List Char

/-- The last character of a consumed span, falling back to the character
that preceded it. -/
def lastPv (m : List Char) (pv : Option Char) : Option Char :=
  match m.getLast? with
  | some c => some c
  | none => pv

/-- All ways a greedy class star can match, longest first. -/
def starResults (p : Char → Bool) (pv : Option Char) (s : List Char) : List MRes :=
  let t := s.takeWhile p
  (List.range (t.length + 1)).map (fun i =>
    let k := t.length - i
    let m := t.take k
    ⟨m, [], lastPv m pv, s.drop k⟩)

/-- All ways a greedy counted class repetition can match, longest first. -/
def repResults (p : Char → Bool) (lo : Nat) (hi : Option Nat) (pv : Option Char)
    (s : List Char) : List MRes :=
  let t := s.takeWhile p
  let top := match hi with
    | some h => min h t.length
    | none => t.length
  if t.length < lo then []
  else
    (List.range (top + 1 - lo)).map (fun i =>
      let k := top - i
      let m := t.take k
      ⟨m, [], lastPv m pv, s.drop k⟩)

/-- Is the given point a word boundary, given the preceding character and
the remaining input. -/
def atWb (pv : Option Char) (s : List Char) : Bool :=
  let l := match pv with
    | some c => isWordCh c
    | none => false
  let r := match s.head? with
    | some c => isWordCh c
    | none => false
  l != r

/-- Backtracking matcher: every way `r` can match a prefix of `s`, in the
preference order of a JavaScript engine (greedy, ordered alternation). -/
def mmatch : Rx → Option Char → List Char → List MRes
  | .eps, pv, s => [⟨[], [], pv, s⟩]
  | .cls p, _, s =>
    match s with
    | [] => []
    | c :: rest => if p c then [⟨[c], [], some c, rest⟩] else []
  | .seq a b, pv, s =>
    (mmatch a pv s).flatMap (fun r1 =>
      (mmatch b r1.pv r1.rest).map (fun r2 =>
        ⟨r1.m ++ r2.m, r1.caps ++ r2.caps, r2.pv, r2.rest⟩))
  | .alt a b, pv, s => mmatch a pv s ++ mmatch b pv s
  | .star p, pv, s => starResults p pv s
  | .rep p lo hi, pv, s => repResults p lo hi pv s
  | .quest a, pv, s => mmatch a pv s ++ [⟨[], [], pv, s⟩]
  | .grp n a, pv, s =>
    (mmatch a pv s).map (fun r => ⟨r.m, (n, r.m) :: r.caps, r.pv, r.rest⟩)
  | .bos, pv, s => if pv.isNone then [⟨[], [], pv, s⟩] else []
  | .eos, pv, s => if s.isEmpty then [⟨[], [], pv, s⟩] else []
  | .bolm, pv, s =>
    if pv.isNone || pv = some '\n' then [⟨[], [], pv, s⟩] else []
  | .wb, pv, s => if atWb pv s then [⟨[], [], pv, s⟩] else []

/-- Leftmost match: try the pattern at each position from the current one
on, keeping the engine-preferred result of the first position that
matches.  Returns the match position and the result. -/
def searchAux (r : Rx) (pv : Option Char) (s : List Char) (pos : Nat) :
    Option (Nat × MRes) :=
  match (mmatch r pv s).head? with
  | some res => some (pos, res)
  | none =>
    match s with
    | [] => none
    | c :: rest => searchAux r (some c) rest (pos + 1)

/-- The character just before index `i` of `full`. -/
def prevCharAt (full : List Char) (i : Nat) : Option Char :=
  if i = 0 then none else full.get? (i - 1)

/-- Leftmost match at or after index `i` of `full`, as RegExp.exec does
from lastIndex `i`. -/
def execFrom (r : Rx) (full : List Char) (i : Nat) : Option (Nat × MRes) :=
  searchAux r (prevCharAt full i) (full.drop i) i

/-- The capture of group `n`, when the group participated in the match. -/
def MRes.cap (r : MRes) (n : Nat) : Option (List Char) :=
  (r.caps.find? (fun x => x.1 = n)).map (fun x => x.2)

/-- String.prototype.match with a non-global pattern: the leftmost match. -/
def jsMatch (r : Rx) (s : List Char) : Option MRes :=
  (execFrom r s 0).map (fun x => x.2)

/- ## Pattern construction helpers -/

/-- A single literal character, case sensitive. -/
def chE (c : Char) : Rx := .cls (fun x => x = c)

/-- A single literal character under the ignore-case flag. -/
def chCI (c : Char) : Rx := .cls (fun x => x.toLower = c.toLower)

/-- A literal word under the ignore-case flag. -/
def litCI (s : String) : Rx :=
  s.data.foldr (fun c acc => Rx.seq (chCI c) acc) .eps

/-- Ordered alternation of a list of branches. -/
def altList : List Rx → Rx
  | [] => .cls (fun _ => false)
  | [r] => r
  | r :: rest => .alt r (altList rest)

/-- Greedy plus over a character class. -/
def plusC (p : Char → Bool) : Rx := .seq (.cls p) (.star p)

/-- Sequence of a list of patterns. -/
def seqList : List Rx → Rx
  | [] => .eps
  | [r] => r
  | r :: rest => .seq r (seqList rest)

/- ## The patterns of extractPatientDetailsFromText -/

/-- Class [A-Za-z backslash-s dot] of the name patterns. -/
def nameCls (c : Char) : Bool := isAlphaCh c || isWsCh c || c = '.'

/-- The three name patterns, in source order. -/
def namePatterns : List Rx :=
  [ seqList
      [ altList
          [ litCI "patient", litCI "name",
            .seq (litCI "pt") (.quest (chE '.')),
            .seq (litCI "mr") (.quest (chE '.')),
            .seq (litCI "mrs") (.quest (chE '.')),
            .seq (litCI "ms") (.quest (chE '.')) ],
        .star isWsCh, .quest (chE ':'), .star isWsCh,
        .grp 1 (plusC nameCls) ],
    seqList
      [ litCI "name", .star isWsCh, chE ':', .star isWsCh,
        .grp 1 (plusC nameCls) ],
    seqList
      [ .bolm,
        .grp 1 (seqList
          [ .cls (fun c => 'A' ≤ c && c ≤ 'Z'),
            plusC (fun c => 'a' ≤ c && c ≤ 'z'),
            plusC isWsCh,
            .cls (fun c => 'A' ≤ c && c ≤ 'Z'),
            plusC (fun c => 'a' ≤ c && c ≤ 'z') ]) ] ]

/-- The three age patterns, in source order. -/
def agePatterns : List Rx :=
  [ seqList
      [ altList
          [ litCI "age",
            .seq (litCI "yr") (.quest (chCI 's')),
            .seq (litCI "year") (.quest (chCI 's')),
            litCI "y/o" ],
        .star isWsCh, .quest (chE ':'), .star isWsCh,
        .grp 1 (plusC isDigitCh) ],
    seqList
      [ .grp 1 (plusC isDigitCh), .star isWsCh,
        altList
          [ .seq (litCI "year") (.quest (chCI 's')),
            .seq (litCI "yr") (.quest (chCI 's')),
            litCI "y/o" ] ],
    seqList
      [ litCI "age", .star isWsCh, .grp 1 (plusC isDigitCh) ] ]

/-- The three gender patterns, in source order. -/
def genderPatterns : List Rx :=
  [ seqList
      [ altList [litCI "gender", litCI "sex"],
        .star isWsCh, .quest (chE ':'), .star isWsCh,
        .grp 1 (altList [litCI "male", litCI "female", chCI 'm', chCI 'f']) ],
    seqList
      [ .alt .bos (.cls isWsCh),
        .grp 1 (.alt (litCI "male") (litCI "female")),
        .alt (.cls isWsCh) .eos ],
    seqList
      [ .wb, .grp 1 (.alt (chCI 'm') (chCI 'f')), .wb,
        .star isDotCh,
        altList [litCI "gender", litCI "sex"] ] ]

/-- Class [backslash-d dash plus parens backslash-s] of the first phone
pattern. -/
def phoneCls (c : Char) : Bool :=
  isDigitCh c || c = '-' || c = '+' || c = '(' || c = ')' || isWsCh c

/-- Separator class [dash dot backslash-s] of the second phone pattern. -/
def phoneSep (c : Char) : Bool :=
  c = '-' || c = '.' || isWsCh c

/-- The three phone patterns, in source order. -/
def phonePatterns : List Rx :=
  [ seqList
      [ altList [litCI "phone", litCI "mobile", litCI "contact", litCI "tel"],
        .star isWsCh, .quest (chE ':'), .star isWsCh,
        .grp 1 (.rep phoneCls 10 none) ],
    .grp 1 (seqList
      [ .quest (chE '+'), .rep isDigitCh 1 (some 3), .quest (.cls phoneSep),
        .quest (chE '('), .rep isDigitCh 3 (some 3), .quest (chE ')'),
        .quest (.cls phoneSep), .rep isDigitCh 3 (some 3),
        .quest (.cls phoneSep), .rep isDigitCh 4 (some 4) ]),
    .grp 1 (.rep isDigitCh 10 (some 10)) ]

/- ## Extracted patient details (fallback identifier extraction) -/

/-- The record the service stores extracted identifiers in. -/
structure ExtractedPatientDetails where
  name : String
  age : String
  gender : String
  phoneNumber : String
  deriving DecidableEq, Repr

/-- First-match loop of the name patterns: trim the capture, strip the
characters outside word, whitespace and dot, keep it when its length is
strictly between 2 and 50. -/
def nameLoop : List Rx → List Char → String
  | [], _ => "Not specified"
  | p :: ps, text =>
    match jsMatch p text with
    | some res =>
      match res.cap 1 with
      | some cap =>
        if cap.isEmpty then nameLoop ps text
        else
          let name := (jsTrim cap).filter (fun c => isWordCh c || isWsCh c || c = '.')
          if 2 < name.length && name.length < 50 then String.mk name
          else nameLoop ps text
      | none => nameLoop ps text
    | none => nameLoop ps text

/-- First-match loop of the age patterns: parseInt the capture, keep it
when strictly between 0 and 120. -/
def ageLoop : List Rx → List Char → String
  | [], _ => "Not specified"
  | p :: ps, text =>
    match jsMatch p text with
    | some res =>
      match res.cap 1 with
      | some cap =>
        if cap.isEmpty then ageLoop ps text
        else
          match jsParseInt cap with
          | some a => if 0 < a && a < 120 then toString a else ageLoop ps text
          | none => ageLoop ps text
      | none => ageLoop ps text
    | none => ageLoop ps text

/-- First-match loop of the gender patterns: lower-case the capture and
normalize a leading letter; the loop breaks on the first capture whether
or not a branch fired. -/
def genderLoop : List Rx → List Char → String
  | [], _ => "Not specified"
  | p :: ps, text =>
    match jsMatch p text with
    | some res =>
      match res.cap 1 with
      | some cap =>
        if cap.isEmpty then genderLoop ps text
        else
          let g := jsLower cap
          if g.head? = some 'm' then "Male"
          else if g.head? = some 'f' then "Female"
          else "Not specified"
      | none => genderLoop ps text
    | none => genderLoop ps text

/-- First-match loop of the phone patterns: trim the capture, keep it when
at least 10 characters long. -/
def phoneLoop : List Rx → List Char → String
  | [], _ => "Not specified"
  | p :: ps, text =>
    match jsMatch p text with
    | some res =>
      match res.cap 1 with
      | some cap =>
        if cap.isEmpty then phoneLoop ps text
        else
          let phone := jsTrim cap
          if 10 ≤ phone.length then String.mk phone
          else phoneLoop ps text
      | none => phoneLoop ps text
    | none => phoneLoop ps text

/-- extractPatientDetailsFromText of the service: the four first-match
loops, with the placeholder record for the empty text. -/
def extractPatientDetailsFromText (reportText : String) : ExtractedPatientDetails :=
  if reportText = "" then
    ⟨"Not specified", "Not specified", "Not specified", "Not specified"⟩
  else
    let t := reportText.data
    { name := nameLoop namePatterns t
      age := ageLoop agePatterns t
      gender := genderLoop genderPatterns t
      phoneNumber := phoneLoop phonePatterns t }

/- ## The patterns and tables of extractAbnormalValues -/

/-- Class [A-Za-z backslash-s] of the first medical pattern. -/
def alphaSpaceCls (c : Char) : Bool := isAlphaCh c || isWsCh c

/-- Class [backslash-d dot] of the value captures. -/
def digitDotCls (c : Char) : Bool := isDigitCh c || c = '.'

/-- Class [a-zA-Z slash] of the unit captures. -/
def unitCls (c : Char) : Bool := isAlphaCh c || c = '/'

/-- Class [a-z0-9] under the ignore-case flag. -/
def alnumCls (c : Char) : Bool := isAlphaCh c || isDigitCh c

/-- Tail shared by the medical patterns after the parameter group:
optional colon amid whitespace and the captured numeric value. -/
def medTail : List Rx :=
  [Rx.star isWsCh, .quest (chE ':'), .star isWsCh, .grp 2 (plusC digitDotCls)]

/-- First medical pattern: a letter-and-space run ending in a keyword,
value, optional unit, optional parenthesized range. -/
def medPattern1 : Rx :=
  seqList
    ([ Rx.grp 1 (.seq (plusC alphaSpaceCls)
        (altList
          [ litCI "glucose", litCI "cholesterol", litCI "hemoglobin",
            litCI "iron", litCI "vitamin", litCI "protein",
            litCI "creatinine", litCI "urea", litCI "bilirubin",
            litCI "triglycerides", litCI "hdl", litCI "ldl" ])) ]
      ++ medTail ++
      [ .star isWsCh, .quest (.grp 3 (plusC unitCls)), .star isWsCh,
        .quest (seqList
          [chE '(', .grp 4 (plusC (fun c => c ≠ ')')), chE ')']) ])

/-- Second medical pattern: a keyword, value and mandatory unit. -/
def medPattern2 : Rx :=
  seqList
    ([ Rx.grp 1 (altList
        [ litCI "glucose", litCI "cholesterol", litCI "hemoglobin",
          litCI "hgb", litCI "iron",
          seqList [litCI "vitamin", .star isWsCh, plusC alnumCls],
          litCI "protein", litCI "creatinine", litCI "urea",
          litCI "bilirubin", litCI "triglycerides", litCI "hdl",
          litCI "ldl", litCI "calcium", litCI "sodium", litCI "potassium" ]) ]
      ++ medTail ++
      [ .star isWsCh, .grp 3 (plusC unitCls) ])

/-- Third, generic medical pattern: a word of 3 to 21 letters and spaces,
value and mandatory unit. -/
def medPattern3 : Rx :=
  seqList
    ([ Rx.grp 1 (.seq (.cls isAlphaCh) (.rep alphaSpaceCls 2 (some 20))) ]
      ++ medTail ++
      [ .star isWsCh, .grp 3 (plusC unitCls) ])

/-- The reference table of normal ranges, keyed by the cleaned parameter. -/
def normalRanges : List (String × String) :=
  [ ("glucose", "70-100 mg/dL"),
    ("cholesterol", "<200 mg/dL"),
    ("hdl", ">40 mg/dL (men), >50 mg/dL (women)"),
    ("ldl", "<100 mg/dL"),
    ("triglycerides", "<150 mg/dL"),
    ("hemoglobin", "12-16 g/dL (women), 14-18 g/dL (men)"),
    ("hgb", "12-16 g/dL (women), 14-18 g/dL (men)"),
    ("iron", "60-170 mcg/dL"),
    ("vitamin d", "30-100 ng/mL"),
    ("vitamin b12", "200-900 pg/mL"),
    ("creatinine", "0.6-1.2 mg/dL"),
    ("urea", "7-20 mg/dL"),
    ("bilirubin", "0.3-1.2 mg/dL"),
    ("calcium", "8.5-10.5 mg/dL"),
    ("sodium", "135-145 mEq/L"),
    ("potassium", "3.5-5.0 mEq/L") ]

/-- Parameters discarded as too generic. -/
def genericParams : List String :=
  ["the", "and", "for", "with", "date", "time", "page"]

/-- The record an abnormal value is reported in; at runtime the severity
is a plain string. -/
structure AbnormalValue where
  parameter : String
  value : String
  normalRange : String
  severity : String
  deriving DecidableEq, Repr

/-- One candidate match of a medical pattern: destructure the parameter,
value and unit groups, discard invalid or generic or in-band candidates,
otherwise append the reported value. -/
def processCandidate (res : MRes) (acc : List AbnormalValue) : List AbnormalValue :=
  match res.cap 1, res.cap 2 with
  | some parameter, some value =>
    if !parameter.isEmpty && !value.isEmpty && 2 < parameter.length then
      let clean := jsLower (jsTrim parameter)
      match jsParseFloat value with
      | none => acc
      | some q =>
        if genericParams.contains (String.mk clean) then acc
        else
          let range :=
            match normalRanges.find? (fun e => e.1 = String.mk clean) with
            | some e => e.2
            | none => "Consult reference ranges"
          let valueStr :=
            match res.cap 3 with
            | some u => String.mk (jsTrim (value ++ ' ' :: u))
            | none => String.mk (jsTrim (value ++ [' ']))
          let push (sev : String) : List AbnormalValue :=
            acc ++ [⟨String.mk (jsTrim parameter), valueStr, range, sev⟩]
          if containsSub clean "glucose".data then
            if q.gtNat 126 then push "high"
            else if q.ltNat 70 then push "low"
            else acc
          else if containsSub clean "cholesterol".data then
            if q.gtNat 240 then push "high"
            else if q.gtNat 200 then push "low"
            else acc
          else if containsSub clean "hemoglobin".data || containsSub clean "hgb".data then
            if q.ltNat 10 then push "critical"
            else if q.ltNat 12 then push "low"
            else if q.gtNat 18 then push "high"
            else acc
          else push "low"
    else acc
  | _, _ => acc

/-- The exec loop of one medical pattern: successive matches from the
current lastIndex, stopping when no match remains or once eight values
have been accepted.  Fuel bounds the iteration; every pattern consumes at
least one character per match, so fuel one past the text length is never
exhausted. -/
def abnLoop (r : Rx) (text : List Char) : Nat → Nat → List AbnormalValue → List AbnormalValue
  | 0, _, acc => acc
  | fuel + 1, i, acc =>
    match execFrom r text i with
    | none => acc
    | some (pos, res) =>
      if 8 ≤ acc.length then acc
      else abnLoop r text fuel (pos + res.m.length) (processCandidate res acc)

/-- extractAbnormalValues of the service: the three patterns scan the text
in turn into one accumulator, and the first six accepted values are
reported. -/
def extractAbnormalValues (reportText : String) : List AbnormalValue :=
  let t := reportText.data
  let fuel := t.length + 1
  let a1 := abnLoop medPattern1 t fuel 0 []
  let a2 := abnLoop medPattern2 t fuel 0 a1
  let a3 := abnLoop medPattern3 t fuel 0 a2
  a3.take 6

/- ## JSON values and JSON.parse

JSON numbers are kept as an exact mantissa and a power-of-ten exponent;
the service only ever asks whether a number is truthy. -/

inductive Json where
  | null : Json
  | bool : Bool → Json
  | num : Int → Int → Json
  | str : String → Json
  | arr : List Json → Json
  | obj : List (String × Json) → Json

/-- JSON insignificant whitespace. -/
def jsonWs (c : Char) : Bool :=
  c = ' ' || c = '\t' || c = '\n' || c = '\r'

/-- Drop insignificant whitespace. -/
def skipJWs (s : List Char) : List Char := s.dropWhile jsonWs

/-- Value of a pair of hexadecimal digits, high digit first. -/
def hexPair (u v : Char) : Option Nat :=
  let one (c : Char) : Option Nat :=
    let n := c.toNat
    if 48 ≤ n && n ≤ 57 then some (n - 48)
    else if 97 ≤ n && n ≤ 102 then some (n - 87)
    else if 65 ≤ n && n ≤ 70 then some (n - 55)
    else none
  match one u with
  | none => none
  | some hi =>
    match one v with
    | none => none
    | some lo => some (16 * hi + lo)

/-- The character a single-letter JSON escape stands for. -/
def escChar (e : Char) : Option Char :=
  if e = '"' then some '"'
  else if e = '\\' then some '\\'
  else if e = '/' then some '/'
  else if e = 'b' then some '\x08'
  else if e = 'f' then some '\x0c'
  else if e = 'n' then some '\n'
  else if e = 'r' then some '\r'
  else if e = 't' then some '\t'
  else none

/-- Body of a JSON string after the opening quote: the decoded characters
and the input following the closing quote. -/
def parseJStr : Nat → List Char → Option (List Char × List Char)
  | 0, _ => none
  | fuel + 1, s =>
    match s with
    | [] => none
    | c :: rest =>
      if c = '"' then some ([], rest)
      else if c = '\\' then
        match rest with
        | [] => none
        | e :: rest2 =>
          if e = 'u' then
            match rest2 with
            | h1 :: h2 :: h3 :: h4 :: rest3 =>
              match hexPair h1 h2, hexPair h3 h4 with
              | some hi, some lo =>
                (parseJStr fuel rest3).map (fun r =>
                  (Char.ofNat (256 * hi + lo) :: r.1, r.2))
              | _, _ => none
            | _ => none
          else
            match escChar e with
            | some ch => (parseJStr fuel rest2).map (fun r => (ch :: r.1, r.2))
            | none => none
      else if c.toNat < 32 then none
      else (parseJStr fuel rest).map (fun r => (c :: r.1, r.2))

/-- A JSON number at the head of the input, per the strict JSON grammar. -/
def parseJNum (s : List Char) : Option (Json × List Char) :=
  let sgnRes : Int × List Char :=
    match s with
    | '-' :: t => (-1, t)
    | _ => (1, s)
  let sgn := sgnRes.1
  let s1 := sgnRes.2
  let ip := s1.takeWhile isDigitCh
  if ip.isEmpty then none
  else if 1 < ip.length && ip.head? = some '0' then none
  else
    let s2 := s1.drop ip.length
    let fracRes : Option (List Char × List Char) :=
      match s2 with
      | '.' :: t =>
        let f := t.takeWhile isDigitCh
        if f.isEmpty then none else some (f, t.drop f.length)
      | _ => some ([], s2)
    match fracRes with
    | none => none
    | some (fp, s3) =>
      let expRes : Option (Int × List Char) :=
        match s3 with
        | 'e' :: t =>
          let sgnE : Int × List Char :=
            match t with
            | '+' :: u => (1, u)
            | '-' :: u => (-1, u)
            | _ => (1, t)
          let ds := sgnE.2.takeWhile isDigitCh
          if ds.isEmpty then none
          else some (sgnE.1 * (digitsToNat ds : Int), sgnE.2.drop ds.length)
        | 'E' :: t =>
          let sgnE : Int × List Char :=
            match t with
            | '+' :: u => (1, u)
            | '-' :: u => (-1, u)
            | _ => (1, t)
          let ds := sgnE.2.takeWhile isDigitCh
          if ds.isEmpty then none
          else some (sgnE.1 * (digitsToNat ds : Int), sgnE.2.drop ds.length)
        | _ => some (0, s3)
      match expRes with
      | none => none
      | some (ex, s4) =>
        some (.num (sgn * (digitsToNat (ip ++ fp) : Int)) (ex - (fp.length : Int)), s4)

/-- Parsing mode: a value, the items of an array after the first opening
bracket, or the members of an object. -/
inductive PMode where
  | value : PMode
  | arrItems : List Json → PMode
  | objItems : List (String × Json) → PMode

/-- Recursive descent over a JSON document.  Fuel falls by one per step
and at least one character is consumed every other step, so fuel twice the
input length suffices for every document. -/
def pjv : Nat → PMode → List Char → Option (Json × List Char)
  | 0, _, _ => none
  | fuel + 1, .value, s =>
    match skipJWs s with
    | [] => none
    | '{' :: rest =>
      match skipJWs rest with
      | '}' :: r2 => some (.obj [], r2)
      | r2 => pjv fuel (.objItems []) r2
    | '[' :: rest =>
      match skipJWs rest with
      | ']' :: r2 => some (.arr [], r2)
      | r2 => pjv fuel (.arrItems []) r2
    | '"' :: rest => (parseJStr (rest.length + 1) rest).map (fun r => (.str (String.mk r.1), r.2))
    | 't' :: 'r' :: 'u' :: 'e' :: rest => some (.bool true, rest)
    | 'f' :: 'a' :: 'l' :: 's' :: 'e' :: rest => some (.bool false, rest)
    | 'n' :: 'u' :: 'l' :: 'l' :: rest => some (.null, rest)
    | s1 => parseJNum s1
  | fuel + 1, .arrItems acc, s =>
    match pjv fuel .value s with
    | none => none
    | some (v, r) =>
      match skipJWs r with
      | ',' :: r2 => pjv fuel (.arrItems (acc ++ [v])) r2
      | ']' :: r2 => some (.arr (acc ++ [v]), r2)
      | _ => none
  | fuel + 1, .objItems acc, s =>
    match skipJWs s with
    | '"' :: rest =>
      match parseJStr (rest.length + 1) rest with
      | none => none
      | some (k, r) =>
        match skipJWs r with
        | ':' :: r2 =>
          match pjv fuel .value r2 with
          | none => none
          | some (v, r3) =>
            match skipJWs r3 with
            | ',' :: r4 => pjv fuel (.objItems (acc ++ [(String.mk k, v)])) r4
            | '}' :: r4 => some (.obj (acc ++ [(String.mk k, v)]), r4)
            | _ => none
        | _ => none
    | _ => none

/-- JSON.parse of a complete document: one value and nothing but
whitespace after it. -/
def jsonParse (s : List Char) : Option Json :=
  match pjv (2 * s.length + 2) .value s with
  | some (v, r) => if (skipJWs r).isEmpty then some v else none
  | none => none

/-- Property read on a parsed value, as JavaScript member access on the
object JSON.parse built; JSON.parse keeps the last of duplicate keys. -/
def jsGet (j : Json) (k : String) : Option Json :=
  match j with
  | .obj fs => ((fs.filter (fun e => e.1 = k)).map (fun e => e.2)).getLast?
  | _ => none

/-- JavaScript truthiness of a parsed value. -/
def jsTruthy : Json → Bool
  | .null => false
  | .bool b => b
  | .num m _ => m != 0
  | .str s => !s.isEmpty
  | .arr _ => true
  | .obj _ => true

/- ## The data model of the analysis result

At runtime the parsed reply flows through unchecked, so the fields of the
result hold JSON values; the fallback path fills them with strings and
with reported abnormal values. -/

/-- Caller-supplied patient information. -/
inductive GenderTag where
  | male : GenderTag
  | female : GenderTag
  | other : GenderTag
  deriving DecidableEq

/-- The PatientInfo record of the request. -/
structure PatientInfo where
  name : String
  age : Int
  gender : GenderTag
  phoneNumber : String

/-- The patientDetails member of an analysis result. -/
structure JPatientDetails where
  name : Json
  age : Json
  gender : Json
  phoneNumber : Json

/-- The AIAnalysisResult record of the service. -/
structure AIAnalysisResult where
  patientDetails : JPatientDetails
  summary : Json
  simpleExplanation : Json
  abnormalValues : List Json
  detectedDiseases : List Json
  possibleCauses : List Json
  symptoms : List Json
  lifestyleRecommendations : List Json
  medicineRecommendations : List Json
  doctorRecommendations : List Json

/-- A string field of the decoded reply: kept when present and truthy,
replaced by the default otherwise. -/
def jsFieldOr (v : Option Json) (dflt : String) : Json :=
  match v with
  | some j => if jsTruthy j then j else .str dflt
  | none => .str dflt

/-- An array field of the decoded reply: its elements when array-shaped,
empty otherwise. -/
def jsArrField (v : Option Json) : List Json :=
  match v with
  | some (.arr xs) => xs
  | _ => []

/-- The brace-span pattern: an opening brace, any characters, a closing
brace, greedy. -/
def braceRx : Rx :=
  seqList [chE '{', .star (fun _ => true), chE '}']

/-- parseAIResponse of the service: take the leftmost greedy brace span of
the reply, JSON.parse it, and normalize the decoded object field by
field.  Elements of abnormalValues and of the other arrays pass through
unvalidated. -/
def parseAIResponse (responseText : String) : Except String AIAnalysisResult :=
  match jsMatch braceRx responseText.data with
  | none => .error "Failed to parse AI response: No valid JSON found in AI response"
  | some res =>
    match jsonParse res.m with
    | none => .error "Failed to parse AI response: Unexpected token in JSON"
    | some parsed =>
      let pd := jsGet parsed "patientDetails"
      let pdGet (k : String) : Option Json := pd.bind (fun x => jsGet x k)
      .ok
        { patientDetails :=
            { name := jsFieldOr (pdGet "name") "Not specified"
              age := jsFieldOr (pdGet "age") "Not specified"
              gender := jsFieldOr (pdGet "gender") "Not specified"
              phoneNumber := jsFieldOr (pdGet "phoneNumber") "Not specified" }
          summary := jsFieldOr (jsGet parsed "summary") "Analysis completed"
          simpleExplanation := jsFieldOr (jsGet parsed "simpleExplanation")
            "Please consult with a healthcare professional for detailed interpretation."
          abnormalValues := jsArrField (jsGet parsed "abnormalValues")
          detectedDiseases := jsArrField (jsGet parsed "detectedDiseases")
          possibleCauses := jsArrField (jsGet parsed "possibleCauses")
          symptoms := jsArrField (jsGet parsed "symptoms")
          lifestyleRecommendations := jsArrField (jsGet parsed "lifestyleRecommendations")
          medicineRecommendations := jsArrField (jsGet parsed "medicineRecommendations")
          doctorRecommendations := jsArrField (jsGet parsed "doctorRecommendations") }
def promptPrefixStr : String :=
  "\n"
  ++
  "You are an expert medical AI assistant analyzing a health/lab report. Provide a comprehensive medical analysis by extracting patient information directly from the report and following the exact medical report format.\n"
  ++
  "\n"
  ++
  "Health Report Content:\n"
  ++
  ""

def promptSuffixStr : String :=
  "\n"
  ++
  "\n"
  ++
  "IMPORTANT INSTRUCTIONS:\n"
  ++
  "1. Extract patient details (name, age, gender, phone) ONLY from the PDF content\n"
  ++
  "2. Analyze lab values and identify which ones are outside normal ranges\n"
  ++
  "3. Provide medical insights based on the actual test results\n"
  ++
  "4. Use proper medical terminology but explain in patient-friendly language\n"
  ++
  "5. Be specific about the actual test results found in the report\n"
  ++
  "\n"
  ++
  "Please respond with a valid JSON object in this EXACT structure:\n"
  ++
  "\n"
  ++
  "\x7b\n"
  ++
  "  \"patientDetails\": \x7b\n"
  ++
  "    \"name\": \"Extract exact patient name from report (if not found, use \x27Not specified\x27)\",\n"
  ++
  "    \"age\": \"Extract exact age from report (if not found, use \x27Not specified\x27)\", \n"
  ++
  "    \"gender\": \"Extract exact gender from report (if not found, use \x27Not specified\x27)\",\n"
  ++
  "    \"phoneNumber\": \"Extract phone number from report (if not found, use \x27Not specified\x27)\"\n"
  ++
  "  \x7d,\n"
  ++
  "  \"summary\": \"Brief 2-3 sentence medical summary of the key findings from this specific report\",\n"
  ++
  "  \"simpleExplanation\": \"Patient-friendly explanation of what the test results mean for their health (3-4 sentences, avoid medical jargon)\",\n"
  ++
  "  \"abnormalValues\": [\n"
  ++
  "    \x7b\n"
  ++
  "      \"parameter\": \"Exact test name from the report\",\n"
  ++
  "      \"value\": \"Exact value with units from the report\", \n"
  ++
  "      \"normalRange\": \"Standard normal range for this test\",\n"
  ++
  "      \"severity\": \"low|high|critical (based on how far outside normal range)\"\n"
  ++
  "    \x7d\n"
  ++
  "  ],\n"
  ++
  "  \"detectedDiseases\": [\n"
  ++
  "    \"List specific medical conditions that these test results may indicate\",\n"
  ++
  "    \"Only include conditions strongly supported by the abnormal values\",\n"
  ++
  "    \"Use proper medical condition names\"\n"
  ++
  "  ],\n"
  ++
  "  \"possibleCauses\": [\n"
  ++
  "    \"Medical reasons why these abnormal values might occur\",\n"
  ++
  "    \"Include dietary, lifestyle, and pathological causes\",\n"
  ++
  "    \"Be specific to the actual abnormal findings\"\n"
  ++
  "  ],\n"
  ++
  "  \"symptoms\": [\n"
  ++
  "    \"Clinical symptoms associated with the detected abnormal values\",\n"
  ++
  "    \"Symptoms the patient might experience with these conditions\",\n"
  ++
  "    \"Be specific to the medical findings\"\n"
  ++
  "  ],\n"
  ++
  "  \"lifestyleRecommendations\": [\n"
  ++
  "    \"Specific dietary recommendations based on the test results\",\n"
  ++
  "    \"Exercise recommendations relevant to the findings\", \n"
  ++
  "    \"Lifestyle changes that could improve the abnormal values\",\n"
  ++
  "    \"Specific to the medical conditions detected\"\n"
  ++
  "  ],\n"
  ++
  "  \"medicineRecommendations\": [\n"
  ++
  "    \"General medication categories that might be considered\",\n"
  ++
  "    \"Supplements that could help with the specific deficiencies found\",\n"
  ++
  "    \"Always emphasize consulting with healthcare provider\"\n"
  ++
  "  ],\n"
  ++
  "  \"doctorRecommendations\": [\n"
  ++
  "    \"Specific medical specialists to consult based on findings\",\n"
  ++
  "    \"Urgency level for follow-up based on severity\",\n"
  ++
  "    \"Additional tests that might be needed\",\n"
  ++
  "    \"Specific medical advice for the conditions found\"\n"
  ++
  "  ]\n"
  ++
  "\x7d\n"
  ++
  "\n"
  ++
  "CRITICAL REQUIREMENTS:\n"
  ++
  "- Extract patient info ONLY from the report text, ignore any provided patient data\n"
  ++
  "- Only include abnormal values that are actually outside normal ranges\n"
  ++
  "- Be medically accurate and specific to the actual test results\n"
  ++
  "- Provide actionable medical recommendations\n"
  ++
  "- Use proper medical terminology but explain clearly\n"
  ++
  "- Return ONLY valid JSON, no additional text\n"
  ++
  "- If specific information cannot be found in the report, use appropriate medical language like \"Further evaluation needed\"\n"
  ++
  ""

/-- createAnalysisPrompt of the service: the fixed instruction template
with the extracted report text spliced in.  The caller-supplied
PatientInfo parameter is accepted but never used. -/
def createAnalysisPrompt (reportText : String) (patientInfo : PatientInfo) : String :=
  promptPrefixStr ++ reportText ++ promptSuffixStr

/-- A reported abnormal value as the JavaScript object it becomes in the
result. -/
def abnToJson (v : AbnormalValue) : Json :=
  .obj
    [ ("parameter", .str v.parameter), ("value", .str v.value),
      ("normalRange", .str v.normalRange), ("severity", .str v.severity) ]

/-- generateFallbackAnalysis of the service: patient details and abnormal
values extracted from the text, fixed conservative narrative boilerplate,
with shorter variants when no text content is available.  The reason is
only logged; the PatientInfo is never consulted. -/
def generateFallbackAnalysis (reportText : String) (patientInfo : PatientInfo)
    (reason : String) : AIAnalysisResult :=
  let extractedPatientDetails := extractPatientDetailsFromText reportText
  let abnormalValues := if reportText ≠ "" then extractAbnormalValues reportText else []
  let hasTextContent := reportText ≠ "" && !(jsTrim reportText.data).isEmpty
  { patientDetails :=
      { name := .str extractedPatientDetails.name
        age := .str extractedPatientDetails.age
        gender := .str extractedPatientDetails.gender
        phoneNumber := .str extractedPatientDetails.phoneNumber }
    summary := .str ("Health report analysis completed. "
      ++ (if hasTextContent then "The report contains various laboratory test results and measurements."
          else "The report was processed but detailed text content could not be extracted.")
      ++ " Professional medical consultation is recommended for proper interpretation.")
    simpleExplanation := .str
      ((if hasTextContent then "Your health report shows various test results. Some values may be outside the normal ranges, which could indicate areas that need medical attention."
        else "Your health report has been received and processed.")
      ++ " It\x27s important to discuss these results with your healthcare provider for proper medical interpretation and guidance.")
    abnormalValues := abnormalValues.map abnToJson
    detectedDiseases :=
      if hasTextContent then
        [ Json.str "Further medical evaluation needed to determine specific conditions",
          Json.str "Consult with healthcare provider for accurate diagnosis" ]
      else []
    possibleCauses :=
      if hasTextContent then
        [ Json.str "Dietary factors and nutritional deficiencies",
          Json.str "Lifestyle factors including physical activity levels",
          Json.str "Metabolic and hormonal changes",
          Json.str "Underlying medical conditions requiring evaluation",
          Json.str "Medication effects or interactions",
          Json.str "Age-related physiological changes" ]
      else
        [ Json.str "Professional medical evaluation required for detailed analysis" ]
    symptoms :=
      [ Json.str "Consult your healthcare provider to discuss any symptoms you may be experiencing",
        Json.str "Monitor for any changes in your health status",
        Json.str "Report any concerning symptoms to your doctor promptly" ]
    lifestyleRecommendations :=
      [ Json.str "Maintain a balanced diet rich in fruits, vegetables, whole grains, and lean proteins",
        Json.str "Engage in regular physical activity as recommended by your healthcare provider",
        Json.str "Ensure adequate sleep (7-9 hours per night) for optimal health",
        Json.str "Manage stress through relaxation techniques, meditation, or counseling",
        Json.str "Stay well-hydrated by drinking adequate water throughout the day",
        Json.str "Avoid smoking and limit alcohol consumption",
        Json.str "Follow any specific dietary restrictions recommended by your doctor" ]
    medicineRecommendations :=
      [ Json.str "Take all prescribed medications exactly as directed by your healthcare provider",
        Json.str "Discuss any over-the-counter medications or supplements with your doctor before use",
        Json.str "Do not stop or change medications without consulting your healthcare provider",
        Json.str "Consider vitamin D and B12 supplements if deficiencies are indicated (consult doctor first)",
        Json.str "Maintain a medication list and share it with all healthcare providers" ]
    doctorRecommendations :=
      [ Json.str "Schedule a follow-up appointment with your primary care physician to discuss these results",
        Json.str "Bring the original report and any questions you have about your health",
        Json.str "Ask your doctor to explain any values that are outside normal ranges",
        Json.str "Discuss whether additional testing or specialist referrals are needed",
        Json.str "Consider consulting an endocrinologist if metabolic issues are suspected",
        Json.str "Seek immediate medical attention if you experience any concerning symptoms",
        Json.str (if hasTextContent then "Request a detailed explanation of all test results during your appointment"
          else "Ensure your healthcare provider has access to the complete original report") ] }

/- ## Orchestration

The asynchronous parts are functions of an explicit environment: the
behaviour of the pdf-parse library on the given buffer and the behaviour
of the remote generation call (when it settles, and with what). -/

/-- The fixed duration of the invocation timer, in milliseconds. -/
def analysisTimeoutMs : Nat := 180000

/-- External behaviour of one request: the outcome of the pdf-parse
library on the uploaded buffer, the time at which the generation call
settles (none when it never settles), and its outcome when it does. -/
structure Env where
  pdfParse : Except String String
  aiSettleMs : Option Nat
  aiReply : Except String String

/-- extractTextFromPDF of the service: empty-buffer and PDF-signature
checks, a first library attempt, and on any failure a second,
parameter-identical library attempt that is kept only when it yields
non-whitespace text; otherwise the original error is rethrown wrapped. -/
def extractTextFromPDF (pdfBuffer : String) (lib : Except String String) :
    Except String String :=
  let firstTry : Except String String :=
    if pdfBuffer.length = 0 then .error "PDF buffer is empty or invalid"
    else if pdfBuffer.data.take 4 = "%PDF".data then lib
    else .error "File does not appear to be a valid PDF (missing PDF header)"
  match firstTry with
  | .ok t => .ok t
  | .error e =>
    match lib with
    | .ok t =>
      if t ≠ "" && !(jsTrim t.data).isEmpty then .ok t
      else .error ("Failed to extract text from PDF: " ++ e)
    | .error _ => .error ("Failed to extract text from PDF: " ++ e)

/-- The race of the generation call against the fixed timer: the call
outcome when it settles before the timer fires, the timeout rejection
otherwise (the call itself is merely ignored, not cancelled). -/
def raceOutcome (env : Env) : Except String String :=
  match env.aiSettleMs with
  | some t =>
    if t < analysisTimeoutMs then env.aiReply
    else .error "AI analysis timeout after 3 minutes"
  | none => .error "AI analysis timeout after 3 minutes"

/-- analyzeHealthReport of the service.  Extraction failures and empty
extracted content fall back on the empty text; invocation failures
(timeout or service error) and parse failures fall back on the extracted
text; the outer catch-all is unreachable because every stage is already
handled.  The codomain records that a JavaScript async function may
reject; this one never does. -/
def analyzeHealthReport (pdfBuffer : String) (patientInfo : PatientInfo)
    (env : Env) : Except String AIAnalysisResult :=
  match extractTextFromPDF pdfBuffer env.pdfParse with
  | .error _ =>
    .ok (generateFallbackAnalysis "" patientInfo "PDF text extraction failed")
  | .ok reportText =>
    if (jsTrim reportText.data).isEmpty then
      .ok (generateFallbackAnalysis "" patientInfo "PDF text extraction failed")
    else
      match raceOutcome env with
      | .error _ =>
        .ok (generateFallbackAnalysis reportText patientInfo "AI service unavailable")
      | .ok analysisText =>
        match parseAIResponse analysisText with
        | .error _ =>
          .ok (generateFallbackAnalysis reportText patientInfo "AI service unavailable")
        | .ok parsedResult => .ok parsedResult

/- ## Well-formedness predicates -/

/-- The severity of a reported value is one of the three documented
levels. -/
def sevOK (v : AbnormalValue) : Bool :=
  v.severity = "low" || v.severity = "high" || v.severity = "critical"

/-- The severity member of a result element is a string among the three
documented levels. -/
def sevJsonOK (j : Json) : Bool :=
  match jsGet j "severity" with
  | some (.str s) => s = "low" || s = "high" || s = "critical"
  | _ => false

/-- Did an Except-valued step succeed. -/
def resultOk {α : Type} (x : Except String α) : Bool :=
  match x with
  | .ok _ => true
  | .error _ => false

/-- Does the pdf-parse behaviour make both extraction attempts fail: an
outright library failure, or text that is empty or whitespace-only. -/
def libFailOrWs : Except String String → Bool
  | .error _ => true
  | .ok t => t = "" || (jsTrim t.data).isEmpty

/- ## Loop-shape lemmas for the fallback identifier extraction -/

/-- The name loop yields the placeholder or an accepted name of more than
two characters. -/
theorem nameLoop_shape (ps : List Rx) (text : List Char) :
    nameLoop ps text = "Not specified" ∨ 2 < (nameLoop ps text).length := by
  induction ps with
  | nil => exact Or.inl rfl
  | cons p ps ih =>
    rw [nameLoop]
    split
    case h_2 => exact ih
    case h_1 res heq =>
      split
      case h_2 => exact ih
      case h_1 cap hcap =>
        split
        case isTrue => exact ih
        case isFalse =>
          dsimp only
          split
          case isTrue h =>
            right
            simp only [Bool.and_eq_true, decide_eq_true_eq] at h
            simpa [String.length] using h.1
          case isFalse => exact ih

/-- The age loop yields the placeholder or the decimal rendering of an
integer strictly between 0 and 120. -/
theorem ageLoop_shape (ps : List Rx) (text : List Char) :
    ageLoop ps text = "Not specified" ∨
      ∃ n : Int, 0 < n ∧ n < 120 ∧ ageLoop ps text = toString n := by
  induction ps with
  | nil => exact Or.inl rfl
  | cons p ps ih =>
    rw [ageLoop]
    split
    case h_2 => exact ih
    case h_1 res heq =>
      split
      case h_2 => exact ih
      case h_1 cap hcap =>
        split
        case isTrue => exact ih
        case isFalse =>
          split
          case h_2 => exact ih
          case h_1 a ha =>
            split
            case isTrue h =>
              simp only [Bool.and_eq_true, decide_eq_true_eq] at h
              exact Or.inr ⟨a, h.1, h.2, rfl⟩
            case isFalse => exact ih

/-- The gender loop yields the placeholder or a normalized full word. -/
theorem genderLoop_shape (ps : List Rx) (text : List Char) :
    genderLoop ps text = "Not specified" ∨ genderLoop ps text = "Male" ∨
      genderLoop ps text = "Female" := by
  induction ps with
  | nil => exact Or.inl rfl
  | cons p ps ih =>
    rw [genderLoop]
    split
    case h_2 => exact ih
    case h_1 res heq =>
      split
      case h_2 => exact ih
      case h_1 cap hcap =>
        split
        case isTrue => exact ih
        case isFalse =>
          dsimp only
          split
          case isTrue => exact Or.inr (Or.inl rfl)
          case isFalse =>
            split
            case isTrue => exact Or.inr (Or.inr rfl)
            case isFalse => exact Or.inl rfl

/-- The phone loop yields the placeholder or an accepted candidate of at
least ten characters. -/
theorem phoneLoop_shape (ps : List Rx) (text : List Char) :
    phoneLoop ps text = "Not specified" ∨ 10 ≤ (phoneLoop ps text).length := by
  induction ps with
  | nil => exact Or.inl rfl
  | cons p ps ih =>
    rw [phoneLoop]
    split
    case h_2 => exact ih
    case h_1 res heq =>
      split
      case h_2 => exact ih
      case h_1 cap hcap =>
        split
        case isTrue => exact ih
        case isFalse =>
          dsimp only
          split
          case isTrue h => right; simpa [String.length] using h
          case isFalse => exact ih

/- ## Invariants of the abnormal-value scan -/

/-- Every value a candidate appends carries one of the three documented
severities. -/
theorem processCandidate_all (res : MRes) (acc : List AbnormalValue)
    (h : acc.all sevOK = true) : (processCandidate res acc).all sevOK = true := by
  unfold processCandidate
  split
  case h_2 => exact h
  case h_1 parameter value hm =>
    split
    case isFalse => exact h
    case isTrue =>
      dsimp only
      split
      case h_1 => exact h
      case h_2 q hq =>
        split
        case isTrue => exact h
        case isFalse =>
          repeat' split
          all_goals first
            | exact h
            | simp [List.all_append, sevOK, h]

/-- A candidate appends at most one value. -/
theorem processCandidate_length (res : MRes) (acc : List AbnormalValue) :
    (processCandidate res acc).length ≤ acc.length + 1 := by
  unfold processCandidate
  split
  case h_2 => omega
  case h_1 parameter value hm =>
    split
    case isFalse => omega
    case isTrue =>
      dsimp only
      split
      case h_1 => omega
      case h_2 q hq =>
        split
        case isTrue => omega
        case isFalse =>
          repeat' split
          all_goals simp [List.length_append]

/-- The exec loop preserves severity well-formedness of the accumulator. -/
theorem abnLoop_all (r : Rx) (text : List Char) (fuel i : Nat)
    (acc : List AbnormalValue) (h : acc.all sevOK = true) :
    (abnLoop r text fuel i acc).all sevOK = true := by
  induction fuel generalizing i acc with
  | zero => exact h
  | succ fuel ih =>
    rw [abnLoop]
    split
    case h_1 => exact h
    case h_2 pos res heq =>
      split
      case isTrue => exact h
      case isFalse => exact ih _ _ (processCandidate_all res acc h)

/-- The exec loop never grows the accumulator past eight values. -/
theorem abnLoop_length (r : Rx) (text : List Char) (fuel i : Nat)
    (acc : List AbnormalValue) :
    (abnLoop r text fuel i acc).length ≤ max acc.length 8 := by
  induction fuel generalizing i acc with
  | zero => simp [abnLoop]
  | succ fuel ih =>
    rw [abnLoop]
    split
    case h_1 => simp
    case h_2 pos res heq =>
      split
      case isTrue => simp
      case isFalse hlt =>
        refine le_trans (ih (pos + res.m.length) (processCandidate res acc)) ?_
        have h1 := processCandidate_length res acc
        simp only [not_le] at hlt
        omega

/-- Every reported abnormal value carries one of the three documented
severities. -/
theorem extractAbnormalValues_all (reportText : String) :
    (extractAbnormalValues reportText).all sevOK = true := by
  unfold extractAbnormalValues
  dsimp only
  rw [List.all_eq_true]
  intro v hv
  have hmem := List.take_subset 6 _ hv
  have hall := abnLoop_all medPattern3 reportText.data (reportText.data.length + 1) 0
    (abnLoop medPattern2 reportText.data (reportText.data.length + 1) 0
      (abnLoop medPattern1 reportText.data (reportText.data.length + 1) 0 []))
    (abnLoop_all medPattern2 reportText.data (reportText.data.length + 1) 0
      (abnLoop medPattern1 reportText.data (reportText.data.length + 1) 0 [])
      (abnLoop_all medPattern1 reportText.data (reportText.data.length + 1) 0 [] rfl))
  exact List.all_eq_true.mp hall v hmem

/-- At most six abnormal values are ever reported. -/
theorem extractAbnormalValues_le_six (reportText : String) :
    (extractAbnormalValues reportText).length ≤ 6 := by
  unfold extractAbnormalValues
  dsimp only
  exact le_trans (List.length_take_le 6 _) (le_refl 6)

/- ## Claim theorems -/

/-- Claim C10: the built analysis prompt depends only on the extracted
report text; no field of the caller-supplied PatientInfo is embedded, so
any two contexts give byte-identical prompts. -/
theorem claim_prompt_ignores_context (text : String) (c1 c2 : PatientInfo) :
    createAnalysisPrompt text c1 = createAnalysisPrompt text c2 := rfl

/-- Claim C2 (amended): the fallback path reports only severities low,
high or critical, both in the extracted list and in the assembled result,
and every patientDetails field is the placeholder or an accepted value of
the documented shape; the AI-parsing path normalizes field shapes but
passes abnormalValues elements through unvalidated. -/
theorem claim_result_wellformedness :
    (∀ text : String, (extractAbnormalValues text).all sevOK = true)
    ∧ (∀ (text : String) (info : PatientInfo) (reason : String),
        ((generateFallbackAnalysis text info reason).abnormalValues).all sevJsonOK = true)
    ∧ (∀ text : String,
        ((extractPatientDetailsFromText text).name = "Not specified"
          ∨ 2 < (extractPatientDetailsFromText text).name.length)
        ∧ ((extractPatientDetailsFromText text).age = "Not specified"
          ∨ ∃ n : Int, 0 < n ∧ n < 120
              ∧ (extractPatientDetailsFromText text).age = toString n)
        ∧ ((extractPatientDetailsFromText text).gender = "Not specified"
          ∨ (extractPatientDetailsFromText text).gender = "Male"
          ∨ (extractPatientDetailsFromText text).gender = "Female")
        ∧ ((extractPatientDetailsFromText text).phoneNumber = "Not specified"
          ∨ 10 ≤ (extractPatientDetailsFromText text).phoneNumber.length)) := by
  refine ⟨extractAbnormalValues_all, ?_, ?_⟩
  · intro text info reason
    unfold generateFallbackAnalysis
    dsimp only
    split
    case isTrue =>
      rw [List.all_eq_true]
      intro j hj
      rw [List.mem_map] at hj
      obtain ⟨v, hv, rfl⟩ := hj
      have hall := List.all_eq_true.mp (extractAbnormalValues_all text) v hv
      have hpt : sevJsonOK (abnToJson v) = sevOK v := rfl
      rw [hpt]
      exact hall
    case isFalse => rfl
  · intro text
    unfold extractPatientDetailsFromText
    split
    case isTrue => exact ⟨Or.inl rfl, Or.inl rfl, Or.inl rfl, Or.inl rfl⟩
    case isFalse =>
      exact ⟨nameLoop_shape _ _, ageLoop_shape _ _, genderLoop_shape _ _,
        phoneLoop_shape _ _⟩

/-- Claim C2 counterexample: a decoded reply whose abnormalValues element
carries severity "bananas" flows through parseAIResponse unchanged, so
the AI-parsing path does not enforce the severity enumeration. -/
theorem claim_result_wellformedness_cx :
    (parseAIResponse "\x7b\"abnormalValues\":[\x7b\"severity\":\"bananas\"\x7d]\x7d").map
      (fun r => r.abnormalValues.map sevJsonOK) = Except.ok [false] := by
  rfl

set_option maxRecDepth 8192 in
/-- Claim C3 (amended): for the rule-coded glucose parameter the examples
hold up to pattern duplication: the high reading is reported by both the
keyword pattern and the generic pattern, giving exactly two reported
values, and the in-band reading is reported by neither. -/
theorem claim_fallback_band_examples :
    extractAbnormalValues "Glucose: 140 mg/dL" =
      [⟨"Glucose", "140 mg/dL", "70-100 mg/dL", "high"⟩,
       ⟨"Glucose", "140 mg/dL", "70-100 mg/dL", "high"⟩]
    ∧ extractAbnormalValues "Glucose: 90 mg/dL" = [] := by
  exact ⟨by decide, by decide⟩

set_option maxRecDepth 8192 in
/-- Claim C3 counterexample: a sodium reading of 140 lies inside the
tabulated band 135-145, yet the fallback reports it (twice, once per
matching pattern) with the defaulted severity low, and the single glucose
reading of the worked example is reported twice, not once. -/
theorem claim_fallback_band_cx :
    extractAbnormalValues "Sodium: 140 mEq/L" =
      [⟨"Sodium", "140 mEq/L", "135-145 mEq/L", "low"⟩,
       ⟨"Sodium", "140 mEq/L", "135-145 mEq/L", "low"⟩]
    ∧ (extractAbnormalValues "Glucose: 140 mg/dL").length = 2 := by
  exact ⟨by decide, by decide⟩

/-- Claim C7 (amended): the age field is the placeholder or the decimal
rendering of an integer strictly between 0 and 120 — the bounds are
exclusive — and the worked examples hold. -/
theorem claim_age_range :
    (∀ text : String, (extractPatientDetailsFromText text).age = "Not specified"
      ∨ ∃ n : Int, 0 < n ∧ n < 120
          ∧ (extractPatientDetailsFromText text).age = toString n)
    ∧ (extractPatientDetailsFromText "Age: 45").age = "45"
    ∧ (extractPatientDetailsFromText "Age: 200").age = "Not specified" := by
  refine ⟨?_, by decide, by decide⟩
  intro text
  unfold extractPatientDetailsFromText
  split
  case isTrue => exact Or.inl rfl
  case isFalse => exact ageLoop_shape _ _

/-- Claim C7 counterexample: the boundary value 120 is matched by the age
pattern yet rejected by the strict guard, so the field is the placeholder
although 120 lies within the inclusive range 0-120. -/
theorem claim_age_range_cx :
    (extractPatientDetailsFromText "Age: 120").age = "Not specified" := by
  decide

/-- Claim C8 (amended): the phone field is the placeholder or an accepted
candidate at least ten characters long after trimming; the guard counts
characters of the matched run, not digits. -/
theorem claim_phone_length :
    ∀ text : String, (extractPatientDetailsFromText text).phoneNumber = "Not specified"
      ∨ 10 ≤ (extractPatientDetailsFromText text).phoneNumber.length := by
  intro text
  unfold extractPatientDetailsFromText
  split
  case isTrue => exact Or.inl rfl
  case isFalse => exact phoneLoop_shape _ _

/-- Claim C8 counterexample: a candidate of eleven characters holding only
six digits is accepted, so acceptance is not a ten-digit requirement. -/
theorem claim_phone_length_cx :
    (extractPatientDetailsFromText "Phone: 1-2-3-4-5-6").phoneNumber = "1-2-3-4-5-6"
    ∧ ("1-2-3-4-5-6".data.filter isDigitCh).length = 6 := by
  exact ⟨by decide, by decide⟩

/-- Claim C9 (amended): at most six values are reported, and the scan
stops early only once eight values have been accepted — the loop bound is
on accepted values, not on examined candidates. -/
theorem claim_scan_bounds :
    (∀ text : String, (extractAbnormalValues text).length ≤ 6)
    ∧ (∀ (r : Rx) (text : List Char) (fuel i : Nat) (acc : List AbnormalValue),
        (abnLoop r text fuel i acc).length ≤ max acc.length 8) :=
  ⟨extractAbnormalValues_le_six, abnLoop_length⟩

set_option maxRecDepth 65536 in
/-- Claim C9 counterexample: the first medical pattern reports a glucose
reading that begins at a later document position than the sodium reading
the second pattern reports after it, so the output is not in document
order; and on a text of nine glucose candidates of which only the ninth is
abnormal, the ninth is still examined and reported, so scanning does not
stop after eight examined candidates. -/
theorem claim_scan_bounds_cx :
    extractAbnormalValues "Sodium: 140 mEq/L Glucose: 140 mg/dL" =
      [⟨"L Glucose", "140 mg/dL", "Consult reference ranges", "high"⟩,
       ⟨"Sodium", "140 mEq/L", "135-145 mEq/L", "low"⟩,
       ⟨"Glucose", "140 mg/dL", "70-100 mg/dL", "high"⟩,
       ⟨"Sodium", "140 mEq/L", "135-145 mEq/L", "low"⟩,
       ⟨"Glucose", "140 mg/dL", "70-100 mg/dL", "high"⟩]
    ∧ extractAbnormalValues
        "Glucose: 90 mg Glucose: 90 mg Glucose: 90 mg Glucose: 90 mg Glucose: 90 mg Glucose: 90 mg Glucose: 90 mg Glucose: 90 mg Glucose: 140 mg" =
      [⟨"Glucose", "140 mg", "70-100 mg/dL", "high"⟩,
       ⟨"Glucose", "140 mg", "70-100 mg/dL", "high"⟩] := by
  exact ⟨by decide, by decide⟩

/- ## Orchestration lemmas -/

/-- An extraction failure is caught and answered with the fallback
analysis of the empty text. -/
theorem analyze_of_extract_error (buf : String) (info : PatientInfo) (env : Env)
    (e : String) (hx : extractTextFromPDF buf env.pdfParse = Except.error e) :
    analyzeHealthReport buf info env =
      Except.ok (generateFallbackAnalysis "" info "PDF text extraction failed") := by
  unfold analyzeHealthReport
  rw [hx]

/-- Whitespace-only extracted content is caught and answered with the
fallback analysis of the empty text. -/
theorem analyze_of_empty_text (buf : String) (info : PatientInfo) (env : Env)
    (t : String) (hx : extractTextFromPDF buf env.pdfParse = Except.ok t)
    (hemp : (jsTrim t.data).isEmpty = true) :
    analyzeHealthReport buf info env =
      Except.ok (generateFallbackAnalysis "" info "PDF text extraction failed") := by
  unfold analyzeHealthReport
  rw [hx]
  simp [hemp]

/-- A failed invocation race is caught and answered with the fallback
analysis of the extracted text. -/
theorem analyze_of_race_error (buf : String) (info : PatientInfo) (env : Env)
    (t e : String) (hx : extractTextFromPDF buf env.pdfParse = Except.ok t)
    (hemp : (jsTrim t.data).isEmpty = false)
    (hrace : raceOutcome env = Except.error e) :
    analyzeHealthReport buf info env =
      Except.ok (generateFallbackAnalysis t info "AI service unavailable") := by
  unfold analyzeHealthReport
  rw [hx]
  simp [hemp, hrace]

/-- A reply the parser rejects is caught and answered with the fallback
analysis of the extracted text. -/
theorem analyze_of_parse_error (buf : String) (info : PatientInfo) (env : Env)
    (t reply e : String) (hx : extractTextFromPDF buf env.pdfParse = Except.ok t)
    (hemp : (jsTrim t.data).isEmpty = false)
    (hrace : raceOutcome env = Except.ok reply)
    (hparse : parseAIResponse reply = Except.error e) :
    analyzeHealthReport buf info env =
      Except.ok (generateFallbackAnalysis t info "AI service unavailable") := by
  unfold analyzeHealthReport
  rw [hx]
  simp [hemp, hrace, hparse]

/-- The orchestration always resolves with a result. -/
theorem analyze_total (buf : String) (info : PatientInfo) (env : Env) :
    ∃ r, analyzeHealthReport buf info env = Except.ok r := by
  unfold analyzeHealthReport
  cases hx : extractTextFromPDF buf env.pdfParse with
  | error e => exact ⟨_, rfl⟩
  | ok t =>
    dsimp only
    cases hemp : (jsTrim t.data).isEmpty with
    | true => simp [hemp]
    | false =>
      simp only [hemp, Bool.false_eq_true, if_false]
      cases hrace : raceOutcome env with
      | error e => exact ⟨_, rfl⟩
      | ok reply =>
        dsimp only
        cases hparse : parseAIResponse reply with
        | error e => exact ⟨_, rfl⟩
        | ok parsed => exact ⟨_, rfl⟩

/-- Claim C1: analyzeHealthReport always resolves with a complete result
and never rejects: an extraction failure or empty content falls back on
the empty text, and a timeout, service error or malformed reply falls
back on the extracted text; no failure at all is surfaced to the caller,
so the set of surfaced failures is contained in the documented
AnalysisUnavailable case. -/
theorem claim_analyzeHealthReport_total (buf : String) (info : PatientInfo) (env : Env) :
    (∃ r, analyzeHealthReport buf info env = Except.ok r)
    ∧ (∀ e, extractTextFromPDF buf env.pdfParse = Except.error e →
        analyzeHealthReport buf info env =
          Except.ok (generateFallbackAnalysis "" info "PDF text extraction failed"))
    ∧ (∀ t, extractTextFromPDF buf env.pdfParse = Except.ok t →
        (jsTrim t.data).isEmpty = true →
        analyzeHealthReport buf info env =
          Except.ok (generateFallbackAnalysis "" info "PDF text extraction failed"))
    ∧ (∀ t e, extractTextFromPDF buf env.pdfParse = Except.ok t →
        (jsTrim t.data).isEmpty = false → raceOutcome env = Except.error e →
        analyzeHealthReport buf info env =
          Except.ok (generateFallbackAnalysis t info "AI service unavailable"))
    ∧ (∀ t reply e, extractTextFromPDF buf env.pdfParse = Except.ok t →
        (jsTrim t.data).isEmpty = false → raceOutcome env = Except.ok reply →
        parseAIResponse reply = Except.error e →
        analyzeHealthReport buf info env =
          Except.ok (generateFallbackAnalysis t info "AI service unavailable")) :=
  ⟨analyze_total buf info env,
   fun e hx => analyze_of_extract_error buf info env e hx,
   fun t hx hemp => analyze_of_empty_text buf info env t hx hemp,
   fun t e hx hemp hrace => analyze_of_race_error buf info env t e hx hemp hrace,
   fun t reply e hx hemp hrace hparse =>
     analyze_of_parse_error buf info env t reply e hx hemp hrace hparse⟩

/-- Witness for claim C1: a buffer without the signature and a crashing
library still resolve with the fallback result. -/
theorem claim_analyzeHealthReport_total_witness :
    analyzeHealthReport "stray bytes" ⟨"Jane Doe", 33, .female, "9999999999"⟩
        ⟨Except.error "pdf-parse exploded", some 5, Except.ok "irrelevant"⟩ =
      Except.ok (generateFallbackAnalysis ""
        ⟨"Jane Doe", 33, .female, "9999999999"⟩ "PDF text extraction failed") :=
  (claim_analyzeHealthReport_total "stray bytes" ⟨"Jane Doe", 33, .female, "9999999999"⟩
    ⟨Except.error "pdf-parse exploded", some 5, Except.ok "irrelevant"⟩).2.1
    "Failed to extract text from PDF: File does not appear to be a valid PDF (missing PDF header)"
    rfl

/-- Claim C4 (amended): a buffer without the PDF signature makes both
extraction attempts fail whenever the library itself also fails or
returns only whitespace; analyzeHealthReport catches the failure and
completes with the fallback analysis of the empty text — nothing is
surfaced to the caller. -/
theorem claim_invalid_format_fallback (buf : String) (info : PatientInfo) (env : Env)
    (hsig : buf.data.take 4 ≠ "%PDF".data) (hlib : libFailOrWs env.pdfParse = true) :
    (∃ e, extractTextFromPDF buf env.pdfParse = Except.error e)
    ∧ analyzeHealthReport buf info env =
        Except.ok (generateFallbackAnalysis "" info "PDF text extraction failed") := by
  have hfail : ∃ e, extractTextFromPDF buf env.pdfParse = Except.error e := by
    unfold extractTextFromPDF
    cases hp : env.pdfParse with
    | error e2 =>
      by_cases hz : buf.length = 0 <;> simp [hz, hsig]
    | ok t =>
      rw [hp] at hlib
      simp only [libFailOrWs] at hlib
      simp only [Bool.or_eq_true, decide_eq_true_eq, List.isEmpty_iff] at hlib
      by_cases hz : buf.length = 0 <;>
        rcases hlib with h1 | h1 <;>
          simp [hz, hsig, h1]
  obtain ⟨e, he⟩ := hfail
  exact ⟨⟨e, he⟩, analyze_of_extract_error buf info env e he⟩

/-- Witness for claim C4 at a concrete malformed buffer and failing
library. -/
theorem claim_invalid_format_fallback_witness :
    (∃ e, extractTextFromPDF "garbage" (Except.error "bad xref") = Except.error e)
    ∧ analyzeHealthReport "garbage" ⟨"John Roe", 41, .male, "8888888888"⟩
        ⟨Except.error "bad xref", some 0, Except.ok "\x7b\x7d"⟩ =
      Except.ok (generateFallbackAnalysis ""
        ⟨"John Roe", 41, .male, "8888888888"⟩ "PDF text extraction failed") :=
  claim_invalid_format_fallback "garbage" ⟨"John Roe", 41, .male, "8888888888"⟩
    ⟨Except.error "bad xref", some 0, Except.ok "\x7b\x7d"⟩ (by decide) rfl

/-- Claim C4 counterexample: a buffer that does not begin with the PDF
signature still yields a successfully resolved AnalysisResult — the
signature failure is caught and routed to the fallback, not surfaced
before the pipeline. -/
theorem claim_invalid_format_fallback_cx :
    resultOk (analyzeHealthReport "garbage bytes" ⟨"P Q", 5, .other, "7777777777"⟩
      ⟨Except.error "broken document", some 1, Except.ok "reply"⟩) = true := rfl

/-- Claim C5: the invocation races the call against the fixed
180000-millisecond timer; a call that never settles, or settles only at
or after the deadline, makes the race fail with the timeout rejection,
and the orchestration still completes with the fallback analysis of the
extracted text. -/
theorem claim_timeout_fallback (buf : String) (info : PatientInfo) (env : Env)
    (t : String) (hx : extractTextFromPDF buf env.pdfParse = Except.ok t)
    (hne : (jsTrim t.data).isEmpty = false) (hnever : env.aiSettleMs = none) :
    raceOutcome env = Except.error "AI analysis timeout after 3 minutes"
    ∧ analyzeHealthReport buf info env =
        Except.ok (generateFallbackAnalysis t info "AI service unavailable")
    ∧ analysisTimeoutMs = 180000
    ∧ (∀ (env2 : Env) (ts : Nat), env2.aiSettleMs = some ts →
        analysisTimeoutMs ≤ ts →
        raceOutcome env2 = Except.error "AI analysis timeout after 3 minutes") := by
  have hrace : raceOutcome env = Except.error "AI analysis timeout after 3 minutes" := by
    unfold raceOutcome
    rw [hnever]
  refine ⟨hrace, analyze_of_race_error buf info env t _ hx hne hrace, rfl, ?_⟩
  intro env2 ts hset hle
  unfold raceOutcome
  rw [hset]
  simp [Nat.not_lt.mpr hle]

/-- Witness for claim C5 at a concrete never-settling call. -/
theorem claim_timeout_fallback_witness :
    analyzeHealthReport "%PDF-1.4" ⟨"A B", 50, .male, "6666666666"⟩
        ⟨Except.ok "Glucose: 140 mg/dL", none, Except.ok "late reply"⟩ =
      Except.ok (generateFallbackAnalysis "Glucose: 140 mg/dL"
        ⟨"A B", 50, .male, "6666666666"⟩ "AI service unavailable") :=
  (claim_timeout_fallback "%PDF-1.4" ⟨"A B", 50, .male, "6666666666"⟩
    ⟨Except.ok "Glucose: 140 mg/dL", none, Except.ok "late reply"⟩
    "Glucose: 140 mg/dL" rfl rfl rfl).2.1

/-- Claim C6: the parser decodes the span from the first opening brace
through the last closing brace; it fails exactly when no such span exists
or the structural decode of the span fails; the noisy worked example
decodes successfully, non-JSON input fails, and a rejected reply is
non-fatal — the orchestration still completes via the fallback. -/
theorem claim_parser_brace_span :
    (∀ s : String, resultOk (parseAIResponse s) =
        (match jsMatch braceRx s.data with
         | some res => (jsonParse res.m).isSome
         | none => false))
    ∧ parseAIResponse "noise \x7b\"summary\":\"ok\",\"abnormalValues\":[]\x7d trailing" =
        Except.ok
          { patientDetails :=
              ⟨.str "Not specified", .str "Not specified",
               .str "Not specified", .str "Not specified"⟩
            summary := .str "ok"
            simpleExplanation :=
              .str "Please consult with a healthcare professional for detailed interpretation."
            abnormalValues := []
            detectedDiseases := []
            possibleCauses := []
            symptoms := []
            lifestyleRecommendations := []
            medicineRecommendations := []
            doctorRecommendations := [] }
    ∧ resultOk (parseAIResponse "The values look odd; consult a clinician.") = false
    ∧ (∀ (buf reply : String) (info : PatientInfo) (env : Env) (t e : String),
        extractTextFromPDF buf env.pdfParse = Except.ok t →
        (jsTrim t.data).isEmpty = false →
        raceOutcome env = Except.ok reply →
        parseAIResponse reply = Except.error e →
        analyzeHealthReport buf info env =
          Except.ok (generateFallbackAnalysis t info "AI service unavailable")) := by
  refine ⟨?_, by rfl, by rfl, ?_⟩
  · intro s
    unfold parseAIResponse
    cases hm : jsMatch braceRx s.data with
    | none => rfl
    | some res =>
      dsimp only
      cases hj : jsonParse res.m with
      | none => rfl
      | some parsed => rfl
  · intro buf reply info env t e hx hemp hrace hparse
    exact analyze_of_parse_error buf info env t reply e hx hemp hrace hparse

/-- Witness for claim C6 at a concrete non-JSON reply. -/
theorem claim_parser_brace_span_witness :
    analyzeHealthReport "%PDF" ⟨"C D", 28, .female, "5555555555"⟩
        ⟨Except.ok "Iron level okay", some 3, Except.ok "no braces at all"⟩ =
      Except.ok (generateFallbackAnalysis "Iron level okay"
        ⟨"C D", 28, .female, "5555555555"⟩ "AI service unavailable") :=
  claim_parser_brace_span.2.2.2 "%PDF" "no braces at all"
    ⟨"C D", 28, .female, "5555555555"⟩
    ⟨Except.ok "Iron level okay", some 3, Except.ok "no braces at all"⟩
    "Iron level okay"
    "Failed to parse AI response: No valid JSON found in AI response" rfl rfl rfl rfl
